import Mathlib

/-!
Shallow embedding of the Serveqrew join-waitlist service (three Deno/Supabase
edge functions: the signup handler in `waitlist.ts`, the newer signup handler
and the dashboard reader in `ref-dashboard.ts`, and the leaderboard handler in
`ref-leaderboard.ts`).

JavaScript string operations are modelled on `List Char`; external calls
(database, auth link generation, email dispatch) are modelled by explicit
state passing over list-valued stores plus injectable failure flags carried in
an environment record, mirroring each call site of the source.
-/

/-! ## JavaScript string primitives -/

/-- Whether `pat` is a leading segment of `l` (character-wise). -/
def strLeads : List Char → List Char → Bool
  | [], _ => true
  | _ :: _, [] => false
  | a :: as, b :: bs => a == b && strLeads as bs

/-- Scan of `String.prototype.includes`: some suffix of `l` starts with `pat`. -/
def includesAux (pat : List Char) : List Char → Bool
  | [] => pat.isEmpty
  | c :: rest => strLeads pat (c :: rest) || includesAux pat rest

/-- JS `s.includes(pat)`. -/
def jsIncludes (s pat : String) : Bool := includesAux pat.data s.data

/-- JS `s.startsWith(pat)`. -/
def jsStartsWith (s pat : String) : Bool := strLeads pat.data s.data

/-- JS `s.toLowerCase()` (ASCII range, which is all the source uses). -/
def jsToLower (s : String) : String := ⟨s.data.map Char.toLower⟩

/-- JS `s.trim()`. -/
def jsTrim (s : String) : String :=
  ⟨((s.data.dropWhile Char.isWhitespace).reverse.dropWhile Char.isWhitespace).reverse⟩

/-- Characters admitted by the `[^\s@]` class of the e-mail regex. -/
def emailChar (c : Char) : Bool := !c.isWhitespace && c != '@'

/-- The test of the anchored regex `[^\s@]+@[^\s@]+\.[^\s@]+` used by both
validators: a nonempty `@`-free, space-free local part, one `@`, and a domain
part containing a dot that is neither its first nor its last character. -/
def emailFormatOk (s : String) : Bool :=
  let cs := s.data
  let l := cs.takeWhile (fun c => c != '@')
  match cs.dropWhile (fun c => c != '@') with
  | [] => false
  | _ :: r =>
    !l.isEmpty && l.all emailChar && !r.isEmpty && r.all emailChar &&
      ((r.drop 1).dropLast.contains '.')

/-! ## Untyped request values (JSON bodies before validation) -/

/-- A JSON/JS value as seen by the field accesses of the validators. -/
inductive JsVal where
  | str (s : String)
  | num (n : Int)
  | boolv (b : Bool)
  | nul
  | undef
  | objv
deriving DecidableEq

/-- The four fields the validators read off the parsed body
(an absent field reads as `undef`). -/
structure RawBody where
  full_name : JsVal
  email : JsVal
  brand_name : JsVal
  ref : JsVal
deriving DecidableEq

deriving instance DecidableEq for Except

/-- Shape of the parsed JSON document handed to a validator. -/
inductive RawJson where
  | obj (b : RawBody)
  | arr
  | nullv
  | prim
deriving DecidableEq

/-- A normalized signup request (`WaitlistSignupRequestBody` plus `ref`). -/
structure ParsedBody where
  full_name : String
  email : String
  brand_name : Option String
  ref : Option String
deriving DecidableEq

/-- A thrown JS value: `Error` objects with their message, runtime
`TypeError`s (also `instanceof Error`), and thrown non-`Error` objects such as
a re-thrown PostgrestError. -/
inductive Thrown where
  | err (msg : String)
  | typeErr (msg : String)
  | objErr (msg : String)
deriving DecidableEq

/-- JS `instanceof Error`. -/
def Thrown.isError : Thrown → Bool
  | .objErr _ => false
  | _ => true

/-- The `.message` of the thrown value. -/
def Thrown.msg : Thrown → String
  | .err m => m
  | .typeErr m => m
  | .objErr m => m

/-- An HTTP response as the claims observe it: the status code, the `error`
tag of the JSON body (`none` on success bodies), and the `field` entry where
the source includes one. -/
structure Resp where
  status : Nat
  tag : Option String
  field : Option String
deriving DecidableEq

/-- The shape of an error raised by the e-mail provider SDK, as probed by the
two quota classifiers (`?.status`, `?.name`, `?.code`, `?.message`). -/
structure EmailError where
  status : Option Nat
  name : Option String
  code : Option String
  message : Option String
deriving DecidableEq

/-! ## Datastore rows -/

/-- A `waitlist_signups` row. -/
structure SignupRecord where
  full_name : String
  email : String
  brand_name : Option String
  referred_by : Option String
  referral_code : String
  referral_count : Option Nat
  created_at : Nat
deriving DecidableEq

/-- A `waitlist_rate_limits` row. -/
structure RateRecord where
  ip : String
  endpoint : String
  created_at : Nat
deriving DecidableEq

/-- Model of `.from("waitlist_signups").select(...).eq("email", e).single()`. -/
def findByEmail (db : List SignupRecord) (e : String) : Option SignupRecord :=
  db.find? (fun r => r.email == e)

/-- Model of `.from("waitlist_signups").select("referral_count").eq("referral_code", c).single()`. -/
def findByCode (db : List SignupRecord) (c : String) : Option SignupRecord :=
  db.find? (fun r => r.referral_code == c)

/-- Model of `.update(...referral_count n...).eq("referral_code", c)`. -/
def updateCountByCode (db : List SignupRecord) (c : String) (n : Nat) : List SignupRecord :=
  db.map (fun r => if r.referral_code == c then { r with referral_count := some n } else r)

/-- The Postgres message produced by a violated unique constraint; the
handlers classify insert errors by searching it for `"duplicate"`. -/
def postgresDupMsg : String := "duplicate key value violates unique constraint"

/-- Model of `.insert(...).select("referral_code").single()` against a store whose
`email` column carries a unique constraint; `fault` injects a non-constraint
insert failure, `newCode` is the referral code the store generates. -/
def insertSignup (db : List SignupRecord) (fault : Option String) (newCode : String)
    (now : Nat) (b : ParsedBody) : Except String (List SignupRecord × String) :=
  match fault with
  | some m => .error m
  | none =>
    if (findByEmail db b.email).isSome then .error postgresDupMsg
    else .ok (db ++ [⟨b.full_name, b.email, b.brand_name, b.ref, newCode, some 0, now⟩], newCode)

/-! ## Rate limiter (`checkRateLimit`, identical in both signup files) -/

def WINDOW_MS : Nat := 120000

def MAX_REQUESTS : Nat := 5

/-- Injectable failures of the two store calls inside `checkRateLimit`. -/
structure RlFaults where
  selectError : Bool
  insertError : Bool
deriving DecidableEq

/-- The `count: "exact"` select filtered by ip, endpoint and
`created_at >= now - WINDOW_MS`. -/
def windowCount (rl : List RateRecord) (ip endpoint : String) (now : Nat) : Nat :=
  (rl.filter (fun r =>
    r.ip == ip && r.endpoint == endpoint && decide (now - WINDOW_MS ≤ r.created_at))).length

/-- Embedding of `checkRateLimit`: fail open on a select error; deny without recording at
or above the threshold; otherwise record (insert failure only logged) and
allow. Returns the allow flag and the updated rate-limit store. -/
def checkRateLimit (f : RlFaults) (rl : List RateRecord) (ip endpoint : String)
    (now : Nat) : Bool × List RateRecord :=
  if f.selectError then (true, rl)
  else if MAX_REQUESTS ≤ windowCount rl ip endpoint now then (false, rl)
  else if f.insertError then (true, rl)
  else (true, rl ++ [⟨ip, endpoint, now⟩])

/-! ## Referral increment (`handleReferralIncrement`; `waitlist.ts`
inlines the same lookup-then-update logic at step 4e) -/

/-- Best-effort referral increment: skip on a falsy ref code, on a lookup
failure (injected by `selErr` or a missing referrer), and on an update
failure; otherwise write `(referral_count ?? 0) + 1` through
`updateCountByCode`. Never throws. -/
def handleReferralIncrement (selErr updErr : Bool) (db : List SignupRecord)
    (refCode : Option String) : List SignupRecord :=
  match refCode with
  | none => db
  | some c =>
    if c == "" then db
    else if selErr then db
    else
      match findByCode db c with
      | none => db
      | some r =>
        if updErr then db
        else updateCountByCode db c (r.referral_count.getD 0 + 1)

/-! ## `waitlist.ts` — the older signup handler -/

namespace Waitlist

/-- Coercion `typeof x === "string" ? x.trim() : ""` (required fields). -/
def coerceReq (v : JsVal) : String :=
  match v with
  | .str s => jsTrim s
  | _ => ""

/-- Coercion `typeof x === "string" ? x.trim() : undefined` (optional fields). -/
def coerceOpt (v : JsVal) : Option String :=
  match v with
  | .str s => some (jsTrim s)
  | _ => none

/-- The check `!raw || typeof raw !== "object"`: `null` and primitives are rejected;
objects pass; an array also passes (its fields then read as `undefined`). -/
def fieldValues : RawJson → Option RawBody
  | .obj b => some b
  | .arr => some ⟨.undef, .undef, .undef, .undef⟩
  | _ => none

/-- Embedding of `validateWaitlistBody`, with the exact thrown messages the catch block
later pattern-matches on. -/
def validateWaitlistBody (raw : RawJson) : Except String ParsedBody :=
  match fieldValues raw with
  | none => .error "Invalid_body"
  | some b =>
    let full_name := coerceReq b.full_name
    let email := coerceReq b.email
    let brand_name := coerceOpt b.brand_name
    let ref := coerceOpt b.ref
    if full_name == "" then .error "Full_name field is required."
    else if email == "" then .error "Email field is required."
    else if 35 < full_name.length then .error "Full_name exceeds 35 chars."
    else if 50 < email.length then .error "Email exceeds 50 chars."
    else if (match brand_name with
             | some bn => bn != "" && decide (50 < bn.length)
             | none => false) then .error "Brand_name exceeds 50 chars."
    else if !emailFormatOk email then .error "Invalid_email_format"
    else .ok ⟨full_name, email, brand_name, ref⟩

/-- Embedding of `validateHeaders`: the header must exist and its lower-casing must start with `application/json`. -/
def contentTypeValid (h : Option String) : Bool :=
  match h with
  | none => false
  | some ct => jsStartsWith (jsToLower ct) "application/json"

/-- The quota test of the email catch at step 4h:
`status === 429 && (name === "daily_quota_exceeded" || code === "daily_quota_exceeded"
|| message?.includes("daily email quota"))`. -/
def isQuotaError (e : EmailError) : Bool :=
  e.status == some 429 &&
    (e.name == some "daily_quota_exceeded" || e.code == some "daily_quota_exceeded" ||
      (match e.message with | some m => jsIncludes m "daily email quota" | none => false))

/-- The catch block of the main handler: translate a thrown value into a
response by matching its message. -/
def catchResp (t : Thrown) : Resp :=
  if t.isError && t.msg == "invalid_content_type" then ⟨415, some "invalid_content_type", none⟩
  else if t.isError &&
      (jsStartsWith t.msg "Full_" || jsStartsWith t.msg "Email" || jsStartsWith t.msg "Brand_") then
    ⟨400, some "invalid_request_body", none⟩
  else if t.isError && t.msg == "Invalid_email_format" then ⟨422, some "invalid_email", none⟩
  else if t.isError && t.msg == "magic_link_error" then ⟨503, some "magic_link_error", none⟩
  else if t.isError && t.msg == "email_quota_exceeded" then ⟨501, some "email_quota_exceeded", none⟩
  else if t.isError && t.msg == "email_send_failed" then ⟨502, some "email_send_failed", none⟩
  else ⟨500, some "internal_server_error", none⟩

/-- One request's view of the outside world: clock, client ip, the two
stores, and the outcome of each external call the handler makes. -/
structure Env where
  now : Nat
  ip : String
  db : List SignupRecord
  rl : List RateRecord
  rlFaults : RlFaults
  contentType : Option String
  body : RawJson
  insertFault : Option String
  newCode : String
  refSelectError : Bool
  refUpdateError : Bool
  linkResult : Option String
  emailError : Option EmailError
deriving DecidableEq

/-- The try block of the main handler (steps 4a–4i). `Except.error` carries a
thrown value together with the signup store as already mutated, since store
writes are external and survive the throw. -/
def tryBody (env : Env) : Except (Thrown × List SignupRecord) (Resp × List SignupRecord) :=
  if !contentTypeValid env.contentType then .error (.err "invalid_content_type", env.db)
  else
    match validateWaitlistBody env.body with
    | .error m => .error (.err m, env.db)
    | .ok b =>
      match insertSignup env.db env.insertFault env.newCode env.now b with
      | .error m =>
        if jsIncludes (jsToLower m) "duplicate" then
          .ok (⟨409, some "duplicate_entry", none⟩, env.db)
        else .ok (⟨500, some "db_error", none⟩, env.db)
      | .ok (db1, _) =>
        let db2 := handleReferralIncrement env.refSelectError env.refUpdateError db1 b.ref
        match env.linkResult with
        | none => .error (.err "magic_link_error", db2)
        | some _ =>
          match env.emailError with
          | some e =>
            if isQuotaError e then .error (.err "email_quota_exceeded", db2)
            else .error (.err "email_send_failed", db2)
          | none => .ok (⟨201, none, none⟩, db2)

/-- The served request after the OPTIONS/method gate: rate limit, then the
try block, with the catch block as the fallback. Returns the response and the
final state of both stores. -/
def serve (env : Env) : Resp × List SignupRecord × List RateRecord :=
  let rlRes := checkRateLimit env.rlFaults env.rl env.ip "join-waitlist" env.now
  if !rlRes.1 then (⟨429, some "rate_limit_exceeded", none⟩, env.db, rlRes.2)
  else
    match tryBody env with
    | .ok (r, db2) => (r, db2, rlRes.2)
    | .error (t, db2) => (catchResp t, db2, rlRes.2)

end Waitlist

/-! ## `ref-dashboard.ts` — the newer signup handler (second document of the
file, with the existence check and returning-user path) -/

namespace RefDash

/-- Access `(raw as any).x?.trim()`: a string trims; `null`/`undefined`
short-circuit to `undefined`; any other value raises a `TypeError` because it
has no `trim` method. -/
def optChainTrim (v : JsVal) : Except Thrown (Option String) :=
  match v with
  | .str s => .ok (some (jsTrim s))
  | .nul => .ok none
  | .undef => .ok none
  | _ => .error (.typeErr "raw field trim is not a function")

/-- Embedding of `validateBody`: reject non-objects and arrays, run the four
optional-chained trims, then the required, length and format checks, throwing
the snake_case messages the error handler matches on. -/
def validateBody (raw : RawJson) : Except Thrown ParsedBody :=
  match raw with
  | .obj b =>
    match optChainTrim b.full_name with
    | .error t => .error t
    | .ok fn? =>
      match optChainTrim b.email with
      | .error t => .error t
      | .ok em? =>
        match optChainTrim b.brand_name with
        | .error t => .error t
        | .ok bn? =>
          match optChainTrim b.ref with
          | .error t => .error t
          | .ok rf? =>
            if fn?.getD "" == "" then .error (.err "full_name_required")
            else if em?.getD "" == "" then .error (.err "email_required")
            else if 50 < (fn?.getD "").length then .error (.err "full_name_too_long")
            else if 200 < (em?.getD "").length then .error (.err "email_too_long")
            else if (match bn? with
                     | some bn => bn != "" && decide (70 < bn.length)
                     | none => false) then .error (.err "brand_name_too_long")
            else if !emailFormatOk (em?.getD "") then .error (.err "invalid_email_format")
            else .ok ⟨fn?.getD "", em?.getD "", bn?, rf?⟩
  | _ => .error (.err "invalid_body")

/-- Embedding of `validateHeaders`: the header must exist and its lower-casing must contain `application/json`. -/
def contentTypeValid (h : Option String) : Bool :=
  match h with
  | none => false
  | some ct => jsIncludes (jsToLower ct) "application/json"

/-- The quota test of the email catch:
`status === 429 || message?.includes("quota") || code === "daily_quota_exceeded"`. -/
def isQuotaError (e : EmailError) : Bool :=
  e.status == some 429 ||
    (match e.message with | some m => jsIncludes m "quota" | none => false) ||
    e.code == some "daily_quota_exceeded"

/-- Embedding of `handleError`: lower-cased substring matches for the validation family,
then the exact-message business-error switch, with 500 as the fallback (also
for thrown values that are not `instanceof Error`). -/
def handleError (t : Thrown) : Resp :=
  if t.isError then
    let m := jsToLower t.msg
    if m == "invalid_content_type" then ⟨415, some "invalid_content_type", none⟩
    else if jsIncludes m "required" then
      ⟨400, some "missing_field",
        some (if jsIncludes m "full_name" then "full name"
              else if jsIncludes m "email" then "email" else "field")⟩
    else if jsIncludes m "too_long" then
      ⟨400, some "field_too_long",
        some (if jsIncludes m "full_name" then "full name"
              else if jsIncludes m "email" then "email" else "brand name")⟩
    else if m == "invalid_email_format" then ⟨422, some "invalid_email", none⟩
    else if t.msg == "magic_link_error" then ⟨503, some "magic_link_error", none⟩
    else if t.msg == "email_quota_exceeded" then ⟨501, some "email_quota_exceeded", none⟩
    else if t.msg == "email_send_failed" then ⟨502, some "email_send_failed", none⟩
    else ⟨500, some "internal_server_error", none⟩
  else ⟨500, some "internal_server_error", none⟩

/-- One request's view of the outside world, as for `Waitlist.Env`, plus the
outcome of the resend call on the returning-user path (which the source does
not wrap in its own try/catch, so a failure there is an arbitrary thrown
value). -/
structure Env where
  now : Nat
  ip : String
  db : List SignupRecord
  rl : List RateRecord
  rlFaults : RlFaults
  contentType : Option String
  body : RawJson
  insertFault : Option String
  newCode : String
  refSelectError : Bool
  refUpdateError : Bool
  linkResult : Option String
  emailError : Option EmailError
  returningEmailThrow : Option Thrown
deriving DecidableEq

/-- The try block of the main handler: validation, existence check, then
either the returning-user path (resend link, no writes) or the new-user path
(insert, referral increment, link, email). A non-duplicate insert error is
re-thrown as the PostgrestError object itself (`objErr`). -/
def tryBody (env : Env) : Except (Thrown × List SignupRecord) (Resp × List SignupRecord) :=
  if !contentTypeValid env.contentType then .error (.err "invalid_content_type", env.db)
  else
    match validateBody env.body with
    | .error t => .error (t, env.db)
    | .ok b =>
      match findByEmail env.db b.email with
      | some _ =>
        match env.linkResult with
        | none => .error (.err "Failed to generate magic link.", env.db)
        | some _ =>
          match env.returningEmailThrow with
          | some t => .error (t, env.db)
          | none => .ok (⟨200, none, none⟩, env.db)
      | none =>
        match insertSignup env.db env.insertFault env.newCode env.now b with
        | .error m =>
          if jsIncludes (jsToLower m) "duplicate" then
            .ok (⟨409, some "duplicate_entry", none⟩, env.db)
          else .error (.objErr m, env.db)
        | .ok (db1, _) =>
          let db2 := handleReferralIncrement env.refSelectError env.refUpdateError db1 b.ref
          match env.linkResult with
          | none => .error (.err "magic_link_error", db2)
          | some _ =>
            match env.emailError with
            | some e =>
              if isQuotaError e then .error (.err "email_quota_exceeded", db2)
              else .error (.err "email_send_failed", db2)
            | none => .ok (⟨201, none, none⟩, db2)

/-- The served request after the OPTIONS/method gate: rate limit, then the
try block, with `handleError` as the catch. -/
def serve (env : Env) : Resp × List SignupRecord × List RateRecord :=
  let rlRes := checkRateLimit env.rlFaults env.rl env.ip "join-waitlist" env.now
  if !rlRes.1 then (⟨429, some "rate_limit_exceeded", none⟩, env.db, rlRes.2)
  else
    match tryBody env with
    | .ok (r, db2) => (r, db2, rlRes.2)
    | .error (t, db2) => (handleError t, db2, rlRes.2)

end RefDash

/-! ## `ref-leaderboard.ts` -/

namespace Leaderboard

/-- Sort key: the `referral_count` column as ordered by the store. -/
def key (r : SignupRecord) : Nat := r.referral_count.getD 0

/-- Insert into a descending-ordered list (a store order satisfying
`.order("referral_count", ascending false)`; ties keep store order). -/
def insertDesc (a : SignupRecord) : List SignupRecord → List SignupRecord
  | [] => [a]
  | b :: bs => if key b < key a then a :: b :: bs else b :: insertDesc a bs

/-- The ordered result set of the leaderboard select. -/
def sortDesc : List SignupRecord → List SignupRecord
  | [] => []
  | a :: as => insertDesc a (sortDesc as)

/-- One entry of the JSON array the endpoint returns
(`...user` plus `rank = index + 1`). -/
structure Entry where
  full_name : String
  referral_code : String
  referral_count : Option Nat
  rank : Nat
deriving DecidableEq

/-- The map `(user, index) => (...user, rank index + 1)`, with `index`
starting from `i`. -/
def addRanks : Nat → List SignupRecord → List Entry
  | _, [] => []
  | i, r :: rs => ⟨r.full_name, r.referral_code, r.referral_count, i + 1⟩ :: addRanks (i + 1) rs

/-- The leaderboard body on a successful query: order by `referral_count`
descending, `limit(10)`, then attach 1-based ranks by position. -/
def serve (db : List SignupRecord) : List Entry :=
  addRanks 0 ((sortDesc db).take 10)

end Leaderboard

/-! ## Derived forms and concrete sample data used by the theorems -/

/-- Pointwise form of a successful referral increment: the record holding the
ref code gets `(referral_count ?? 0) + 1`, every other record is untouched. -/
def bumpIf (c : String) (x : SignupRecord) : SignupRecord :=
  if x.referral_code == c then { x with referral_count := some (x.referral_count.getD 0 + 1) }
  else x

/-- A burst of requests from one client: run `checkRateLimit` (no store
faults) once per timestamp, threading the rate-limit store, and collect the
allow/deny verdicts. -/
def rlSequence (ip ep : String) (times : List Nat) : List Bool × List RateRecord :=
  times.foldl
    (fun acc t =>
      let res := checkRateLimit ⟨false, false⟩ acc.2 ip ep t
      (acc.1 ++ [res.1], res.2))
    ([], [])

/-- An already-registered referrer row. -/
def bobRec : SignupRecord :=
  ⟨"Bob", "bob@example.com", none, none, "REFBOB", some 2, 50⟩

/-- An already-registered row for the returning-user scenarios. -/
def adaRec : SignupRecord :=
  ⟨"Ada", "ada@example.com", none, none, "REFADA", some 0, 60⟩

/-- A well-formed signup body carrying a ref code. -/
def sampleBody : RawJson :=
  .obj ⟨.str "Ada Lovelace", .str "ada@example.com", .undef, .str "REFBOB"⟩

/-- The normalized form of `sampleBody`. -/
def sampleParsed : ParsedBody :=
  ⟨"Ada Lovelace", "ada@example.com", none, some "REFBOB"⟩

/-- A healthy request environment for the `waitlist.ts` handler: fresh email,
known referrer, every external call succeeding. -/
def wEnv0 : Waitlist.Env :=
  { now := 1000000, ip := "203.0.113.9", db := [bobRec], rl := [],
    rlFaults := ⟨false, false⟩, contentType := some "application/json",
    body := sampleBody, insertFault := none, newCode := "NEWCODE9",
    refSelectError := false, refUpdateError := false,
    linkResult := some "https://auth.example/magic", emailError := none }

/-- A healthy request environment for the `ref-dashboard.ts` handler whose
email is already registered (returning user). -/
def rEnv0 : RefDash.Env :=
  { now := 1000000, ip := "203.0.113.9", db := [adaRec, bobRec], rl := [],
    rlFaults := ⟨false, false⟩, contentType := some "application/json",
    body := sampleBody, insertFault := none, newCode := "NEWCODE9",
    refSelectError := false, refUpdateError := false,
    linkResult := some "https://auth.example/magic", emailError := none,
    returningEmailThrow := none }

/-- A `ref-dashboard.ts` environment with a fresh email (new-user path). -/
def rEnvNew : RefDash.Env := { rEnv0 with db := [bobRec] }

/-- A provider dispatch error carrying status 429 but no quota signal at all:
the input on which claim C6 and `waitlist.ts` disagree. -/
def envC6 : Waitlist.Env :=
  { wEnv0 with emailError := some ⟨some 429, none, none, some "Too many requests"⟩ }

/-- A body whose trimmed full_name and trimmed email are both empty. -/
def c8raw : RawJson := .obj ⟨.str "", .str "", .undef, .undef⟩

/-- A body whose email field is present but holds a number. -/
def c10raw : RawJson := .obj ⟨.str "Ada Lovelace", .num 5, .undef, .undef⟩

/-- Five prior requests from one client inside the window. -/
def rl5 : List RateRecord :=
  [⟨"203.0.113.9", "join-waitlist", 100⟩, ⟨"203.0.113.9", "join-waitlist", 200⟩,
   ⟨"203.0.113.9", "join-waitlist", 300⟩, ⟨"203.0.113.9", "join-waitlist", 400⟩,
   ⟨"203.0.113.9", "join-waitlist", 500⟩]

/-- The `waitlist.ts` environment of a sixth request inside the window. -/
def wEnvRate : Waitlist.Env := { wEnv0 with rl := rl5, now := 600 }

/-! ## Support lemmas -/

theorem mem_insertDesc {a x : SignupRecord} : ∀ {l : List SignupRecord},
    x ∈ Leaderboard.insertDesc a l → x = a ∨ x ∈ l
  | [], h => by simpa [Leaderboard.insertDesc] using h
  | b :: bs, h => by
    by_cases hk : Leaderboard.key b < Leaderboard.key a
    · simpa [Leaderboard.insertDesc, hk, or_assoc] using h
    · simp only [Leaderboard.insertDesc, hk, if_false, List.mem_cons, ite_false] at h
      rcases h with rfl | h
      · exact Or.inr (List.mem_cons_self _ _)
      · rcases mem_insertDesc h with rfl | h'
        · exact Or.inl rfl
        · exact Or.inr (List.mem_cons_of_mem _ h')

theorem pairwise_insertDesc (a : SignupRecord) (l : List SignupRecord)
    (h : l.Pairwise (fun x y => Leaderboard.key y ≤ Leaderboard.key x)) :
    (Leaderboard.insertDesc a l).Pairwise (fun x y => Leaderboard.key y ≤ Leaderboard.key x) := by
  induction l with
  | nil => simp [Leaderboard.insertDesc]
  | cons b bs ih =>
    rcases List.pairwise_cons.mp h with ⟨hb, hbs⟩
    by_cases hk : Leaderboard.key b < Leaderboard.key a
    · simp only [Leaderboard.insertDesc, hk, ite_true, if_true]
      refine List.pairwise_cons.mpr ⟨?_, h⟩
      intro y hy
      rcases List.mem_cons.mp hy with rfl | hy
      · exact Nat.le_of_lt hk
      · exact Nat.le_trans (hb y hy) (Nat.le_of_lt hk)
    · simp only [Leaderboard.insertDesc, hk, ite_false, if_false]
      refine List.pairwise_cons.mpr ⟨?_, ih hbs⟩
      intro y hy
      rcases mem_insertDesc hy with rfl | hy
      · exact Nat.le_of_not_lt hk
      · exact hb y hy

theorem pairwise_sortDesc (l : List SignupRecord) :
    (Leaderboard.sortDesc l).Pairwise (fun x y => Leaderboard.key y ≤ Leaderboard.key x) := by
  induction l with
  | nil => simp [Leaderboard.sortDesc]
  | cons a as ih => exact pairwise_insertDesc a _ ih

theorem addRanks_length (i : Nat) (l : List SignupRecord) :
    (Leaderboard.addRanks i l).length = l.length := by
  induction l generalizing i with
  | nil => rfl
  | cons r rs ih => simp [Leaderboard.addRanks, ih]

theorem addRanks_get_rank (l : List SignupRecord) (i j : Nat)
    (h : j < (Leaderboard.addRanks i l).length) :
    ((Leaderboard.addRanks i l).get ⟨j, h⟩).rank = i + j + 1 := by
  induction l generalizing i j with
  | nil => simp [Leaderboard.addRanks] at h
  | cons r rs ih =>
    cases j with
    | zero => simp [Leaderboard.addRanks]
    | succ j =>
      have h' : j < (Leaderboard.addRanks (i + 1) rs).length := by
        have := h
        simp only [Leaderboard.addRanks, List.length_cons] at this
        omega
      have step := ih (i + 1) j h'
      have : ((Leaderboard.addRanks i (r :: rs)).get ⟨j + 1, h⟩)
          = ((Leaderboard.addRanks (i + 1) rs).get ⟨j, h'⟩) := rfl
      rw [this, step]
      omega

theorem mem_addRanks {y : Leaderboard.Entry} : ∀ {i : Nat} {l : List SignupRecord},
    y ∈ Leaderboard.addRanks i l → ∃ x ∈ l, y.referral_count = x.referral_count
  | i, [], h => by simp [Leaderboard.addRanks] at h
  | i, r :: rs, h => by
    simp only [Leaderboard.addRanks, List.mem_cons] at h
    rcases h with rfl | h
    · exact ⟨r, List.mem_cons_self _ _, rfl⟩
    · rcases mem_addRanks h with ⟨x, hx, he⟩
      exact ⟨x, List.mem_cons_of_mem _ hx, he⟩

theorem pairwise_addRanks (i : Nat) (l : List SignupRecord)
    (h : l.Pairwise (fun x y => Leaderboard.key y ≤ Leaderboard.key x)) :
    (Leaderboard.addRanks i l).Pairwise
      (fun a b => b.referral_count.getD 0 ≤ a.referral_count.getD 0) := by
  induction l generalizing i with
  | nil => simp [Leaderboard.addRanks]
  | cons r rs ih =>
    rcases List.pairwise_cons.mp h with ⟨hr, hrs⟩
    refine List.pairwise_cons.mpr ⟨?_, ih (i + 1) hrs⟩
    intro y hy
    rcases mem_addRanks hy with ⟨x, hx, he⟩
    simpa [he] using hr x hx

/-! ## Claim theorems -/

/-- C7: the leaderboard response contains at most 10 entries, its
`referral_count` values are non-increasing from first to last, and each
entry's `rank` equals its 1-based position in the returned list. -/
theorem C7_leaderboard_shape (db : List SignupRecord) :
    (Leaderboard.serve db).length ≤ 10 ∧
    (Leaderboard.serve db).Pairwise
      (fun a b => b.referral_count.getD 0 ≤ a.referral_count.getD 0) ∧
    ∀ (i : Nat) (h : i < (Leaderboard.serve db).length),
      ((Leaderboard.serve db).get ⟨i, h⟩).rank = i + 1 := by
  refine ⟨?_, ?_, ?_⟩
  · rw [Leaderboard.serve, addRanks_length, List.length_take]
    exact min_le_left _ _
  · exact pairwise_addRanks 0 _
      (List.Pairwise.sublist (List.take_sublist _ _) (pairwise_sortDesc db))
  · intro i h
    have := addRanks_get_rank ((Leaderboard.sortDesc db).take 10) 0 i h
    simpa [Leaderboard.serve] using this

/-- Witness for C7 at a concrete two-row store. -/
theorem C7_leaderboard_shape_witness :
    ((Leaderboard.serve [bobRec, adaRec]).get ⟨1, by decide⟩).rank = 1 + 1 :=
  (C7_leaderboard_shape [bobRec, adaRec]).2.2 1 (by decide)

/-- C3: for a fixed (ip, endpoint), a window count of at least 5 means the
request is denied with no new rate-limit record; a count below 5 means a
record is inserted and the request is allowed; the sixth request inside the
window is denied; a failed counting query allows the request (fail open); and
the handler maps a denial to HTTP 429 without touching the signup store. -/
theorem C3_rate_limiter :
    (∀ (ins : Bool) (rl : List RateRecord) (ip ep : String) (now : Nat),
        5 ≤ windowCount rl ip ep now →
        checkRateLimit ⟨false, ins⟩ rl ip ep now = (false, rl)) ∧
    (∀ (rl : List RateRecord) (ip ep : String) (now : Nat),
        windowCount rl ip ep now < 5 →
        checkRateLimit ⟨false, false⟩ rl ip ep now = (true, rl ++ [⟨ip, ep, now⟩])) ∧
    (∀ (ins : Bool) (rl : List RateRecord) (ip ep : String) (now : Nat),
        checkRateLimit ⟨true, ins⟩ rl ip ep now = (true, rl)) ∧
    (rlSequence "203.0.113.9" "join-waitlist" [0, 20000, 40000, 60000, 80000, 100000]).1
        = [true, true, true, true, true, false] ∧
    (∀ (env : Waitlist.Env),
        (checkRateLimit env.rlFaults env.rl env.ip "join-waitlist" env.now).1 = false →
        (Waitlist.serve env).1 = ⟨429, some "rate_limit_exceeded", none⟩ ∧
        (Waitlist.serve env).2.1 = env.db) := by
  refine ⟨?_, ?_, ?_, by decide, ?_⟩
  · intro ins rl ip ep now h
    simp [checkRateLimit, MAX_REQUESTS, h]
  · intro rl ip ep now h
    simp [checkRateLimit, MAX_REQUESTS, Nat.not_le.mpr h]
  · intro ins rl ip ep now
    simp [checkRateLimit]
  · intro env h
    exact ⟨by simp [Waitlist.serve, h], by simp [Waitlist.serve, h]⟩

/-- Witness for C3: the sixth request from one client inside the window is
denied with no insert, a first request is allowed and recorded, and the
handler answers 429. -/
theorem C3_rate_limiter_witness :
    checkRateLimit ⟨false, false⟩ rl5 "203.0.113.9" "join-waitlist" 600 = (false, rl5) ∧
    checkRateLimit ⟨false, false⟩ [] "203.0.113.9" "join-waitlist" 0
        = (true, [⟨"203.0.113.9", "join-waitlist", 0⟩]) ∧
    (Waitlist.serve wEnvRate).1 = ⟨429, some "rate_limit_exceeded", none⟩ :=
  ⟨C3_rate_limiter.1 false rl5 "203.0.113.9" "join-waitlist" 600 (by decide),
   C3_rate_limiter.2.1 [] "203.0.113.9" "join-waitlist" 0 (by decide),
   (C3_rate_limiter.2.2.2.2 wEnvRate (by decide)).1⟩

/-- C5: a signup insert failing with a unique-constraint violation on email
is answered with HTTP 409 and error tag `duplicate_entry` (not a generic 500),
in both signup handlers; in particular an insert against a store already
holding the email hits the constraint and yields 409 with the store
unchanged. -/
theorem C5_duplicate_conflict :
    (∀ (env : Waitlist.Env) (b : ParsedBody) (m : String),
        Waitlist.contentTypeValid env.contentType = true →
        (checkRateLimit env.rlFaults env.rl env.ip "join-waitlist" env.now).1 = true →
        Waitlist.validateWaitlistBody env.body = .ok b →
        env.insertFault = some m →
        jsIncludes (jsToLower m) "duplicate" = true →
        (Waitlist.serve env).1 = ⟨409, some "duplicate_entry", none⟩) ∧
    (∀ (env : Waitlist.Env) (b : ParsedBody),
        Waitlist.contentTypeValid env.contentType = true →
        (checkRateLimit env.rlFaults env.rl env.ip "join-waitlist" env.now).1 = true →
        Waitlist.validateWaitlistBody env.body = .ok b →
        env.insertFault = none →
        (findByEmail env.db b.email).isSome = true →
        (Waitlist.serve env).1 = ⟨409, some "duplicate_entry", none⟩ ∧
        (Waitlist.serve env).2.1 = env.db) ∧
    (∀ (env : RefDash.Env) (b : ParsedBody) (m : String),
        RefDash.contentTypeValid env.contentType = true →
        (checkRateLimit env.rlFaults env.rl env.ip "join-waitlist" env.now).1 = true →
        RefDash.validateBody env.body = .ok b →
        findByEmail env.db b.email = none →
        env.insertFault = some m →
        jsIncludes (jsToLower m) "duplicate" = true →
        (RefDash.serve env).1 = ⟨409, some "duplicate_entry", none⟩) := by
  refine ⟨?_, ?_, ?_⟩
  · intro env b m hct hrate hval hins hdup
    simp [Waitlist.serve, Waitlist.tryBody, hct, hrate, hval, hins, hdup, insertSignup]
  · intro env b hct hrate hval hins hex
    have hdup : jsIncludes (jsToLower postgresDupMsg) "duplicate" = true := by decide
    constructor <;>
      simp [Waitlist.serve, Waitlist.tryBody, hct, hrate, hval, hins, hex, hdup, insertSignup]
  · intro env b m hct hrate hval hmiss hins hdup
    simp [RefDash.serve, RefDash.tryBody, hct, hrate, hval, hmiss, hins, hdup, insertSignup]

/-- Witness for C5: a duplicate-key insert error yields 409 in both handlers,
and a second signup with an already-stored email yields 409. -/
theorem C5_duplicate_conflict_witness :
    (Waitlist.serve { wEnv0 with insertFault := some postgresDupMsg }).1
        = ⟨409, some "duplicate_entry", none⟩ ∧
    (Waitlist.serve { wEnv0 with db := [adaRec, bobRec] }).1
        = ⟨409, some "duplicate_entry", none⟩ ∧
    (RefDash.serve { rEnvNew with insertFault := some postgresDupMsg }).1
        = ⟨409, some "duplicate_entry", none⟩ :=
  ⟨C5_duplicate_conflict.1 { wEnv0 with insertFault := some postgresDupMsg } sampleParsed
      postgresDupMsg (by decide) (by decide) (by decide) rfl (by decide),
   (C5_duplicate_conflict.2.1 { wEnv0 with db := [adaRec, bobRec] } sampleParsed
      (by decide) (by decide) (by decide) rfl (by decide)).1,
   C5_duplicate_conflict.2.2 { rEnvNew with insertFault := some postgresDupMsg } sampleParsed
      postgresDupMsg (by decide) (by decide) (by decide) (by decide) rfl (by decide)⟩

theorem any_email_map (f : SignupRecord → SignupRecord)
    (hf : ∀ x, (f x).email = x.email) (db : List SignupRecord) (e : String) :
    ((db.map f).any (fun r => r.email == e)) = db.any (fun r => r.email == e) := by
  induction db with
  | nil => rfl
  | cons x xs ih => simp [List.any_cons, hf, ih]

theorem any_email_updateCount (db : List SignupRecord) (c : String) (n : Nat) (e : String) :
    ((updateCountByCode db c n).any (fun r => r.email == e))
      = db.any (fun r => r.email == e) := by
  refine any_email_map _ (fun x => ?_) db e
  by_cases h : (x.referral_code == c) = true <;> simp [h]

theorem any_email_increment (s u : Bool) (db : List SignupRecord) (rc : Option String)
    (e : String) :
    ((handleReferralIncrement s u db rc).any (fun r => r.email == e))
      = db.any (fun r => r.email == e) := by
  cases rc with
  | none => rfl
  | some c =>
    by_cases h1 : (c == "") = true
    · simp [handleReferralIncrement, h1]
    · cases s with
      | true => simp [handleReferralIncrement, h1]
      | false =>
        cases hf : findByCode db c with
        | none => simp [handleReferralIncrement, h1, hf]
        | some r =>
          cases u with
          | true => simp [handleReferralIncrement, h1, hf]
          | false =>
            simp only [handleReferralIncrement, h1, Bool.false_eq_true, if_false, hf]
            exact any_email_updateCount db c _ e

/-- C4: on the new-user path, when the insert succeeded and a later step
fails, the response is 503 for magic-link generation failure, 501 for email
quota exceeded, 502 for any other dispatch failure — and in every case a
record with the signup email is still present in the signup store (no
rollback or deletion), in both signup handlers. -/
theorem C4_post_insert_failures :
    (∀ (env : Waitlist.Env) (b : ParsedBody),
        Waitlist.contentTypeValid env.contentType = true →
        (checkRateLimit env.rlFaults env.rl env.ip "join-waitlist" env.now).1 = true →
        Waitlist.validateWaitlistBody env.body = .ok b →
        env.insertFault = none →
        findByEmail env.db b.email = none →
        ((env.linkResult = none →
            (Waitlist.serve env).1 = ⟨503, some "magic_link_error", none⟩) ∧
         (∀ e, env.linkResult.isSome = true → env.emailError = some e →
            Waitlist.isQuotaError e = true →
            (Waitlist.serve env).1 = ⟨501, some "email_quota_exceeded", none⟩) ∧
         (∀ e, env.linkResult.isSome = true → env.emailError = some e →
            Waitlist.isQuotaError e = false →
            (Waitlist.serve env).1 = ⟨502, some "email_send_failed", none⟩) ∧
         (Waitlist.serve env).2.1.any (fun r => r.email == b.email) = true)) ∧
    (∀ (env : RefDash.Env) (b : ParsedBody),
        RefDash.contentTypeValid env.contentType = true →
        (checkRateLimit env.rlFaults env.rl env.ip "join-waitlist" env.now).1 = true →
        RefDash.validateBody env.body = .ok b →
        env.insertFault = none →
        findByEmail env.db b.email = none →
        ((env.linkResult = none →
            (RefDash.serve env).1 = ⟨503, some "magic_link_error", none⟩) ∧
         (∀ e, env.linkResult.isSome = true → env.emailError = some e →
            RefDash.isQuotaError e = true →
            (RefDash.serve env).1 = ⟨501, some "email_quota_exceeded", none⟩) ∧
         (∀ e, env.linkResult.isSome = true → env.emailError = some e →
            RefDash.isQuotaError e = false →
            (RefDash.serve env).1 = ⟨502, some "email_send_failed", none⟩) ∧
         (RefDash.serve env).2.1.any (fun r => r.email == b.email) = true)) := by
  have hw503 : Waitlist.catchResp (.err "magic_link_error")
      = ⟨503, some "magic_link_error", none⟩ := by decide
  have hw501 : Waitlist.catchResp (.err "email_quota_exceeded")
      = ⟨501, some "email_quota_exceeded", none⟩ := by decide
  have hw502 : Waitlist.catchResp (.err "email_send_failed")
      = ⟨502, some "email_send_failed", none⟩ := by decide
  have hr503 : RefDash.handleError (.err "magic_link_error")
      = ⟨503, some "magic_link_error", none⟩ := by decide
  have hr501 : RefDash.handleError (.err "email_quota_exceeded")
      = ⟨501, some "email_quota_exceeded", none⟩ := by decide
  have hr502 : RefDash.handleError (.err "email_send_failed")
      = ⟨502, some "email_send_failed", none⟩ := by decide
  constructor
  · intro env b hct hrate hval hins hmiss
    refine ⟨?_, ?_, ?_, ?_⟩
    · intro hl
      simp [Waitlist.serve, Waitlist.tryBody, hct, hrate, hval, hins, hmiss, hl,
        insertSignup, hw503]
    · intro e hl he hq
      rcases Option.isSome_iff_exists.mp hl with ⟨l, hl'⟩
      simp [Waitlist.serve, Waitlist.tryBody, hct, hrate, hval, hins, hmiss, hl', he, hq,
        insertSignup, hw501]
    · intro e hl he hq
      rcases Option.isSome_iff_exists.mp hl with ⟨l, hl'⟩
      simp [Waitlist.serve, Waitlist.tryBody, hct, hrate, hval, hins, hmiss, hl', he, hq,
        insertSignup, hw502]
    · have hdb : (Waitlist.serve env).2.1
          = handleReferralIncrement env.refSelectError env.refUpdateError
              (env.db ++ [⟨b.full_name, b.email, b.brand_name, b.ref, env.newCode, some 0, env.now⟩])
              b.ref := by
        cases hl : env.linkResult with
        | none =>
          simp [Waitlist.serve, Waitlist.tryBody, hct, hrate, hval, hins, hmiss, hl, insertSignup]
        | some l =>
          cases he : env.emailError with
          | none =>
            simp [Waitlist.serve, Waitlist.tryBody, hct, hrate, hval, hins, hmiss, hl, he,
              insertSignup]
          | some e =>
            by_cases hq : Waitlist.isQuotaError e = true
            · simp [Waitlist.serve, Waitlist.tryBody, hct, hrate, hval, hins, hmiss, hl, he, hq,
                insertSignup]
            · simp [Waitlist.serve, Waitlist.tryBody, hct, hrate, hval, hins, hmiss, hl, he, hq,
                insertSignup]
      rw [hdb, any_email_increment, List.any_append]
      simp
  · intro env b hct hrate hval hins hmiss
    refine ⟨?_, ?_, ?_, ?_⟩
    · intro hl
      simp [RefDash.serve, RefDash.tryBody, hct, hrate, hval, hins, hmiss, hl,
        insertSignup, hr503]
    · intro e hl he hq
      rcases Option.isSome_iff_exists.mp hl with ⟨l, hl'⟩
      simp [RefDash.serve, RefDash.tryBody, hct, hrate, hval, hins, hmiss, hl', he, hq,
        insertSignup, hr501]
    · intro e hl he hq
      rcases Option.isSome_iff_exists.mp hl with ⟨l, hl'⟩
      simp [RefDash.serve, RefDash.tryBody, hct, hrate, hval, hins, hmiss, hl', he, hq,
        insertSignup, hr502]
    · have hdb : (RefDash.serve env).2.1
          = handleReferralIncrement env.refSelectError env.refUpdateError
              (env.db ++ [⟨b.full_name, b.email, b.brand_name, b.ref, env.newCode, some 0, env.now⟩])
              b.ref := by
        cases hl : env.linkResult with
        | none =>
          simp [RefDash.serve, RefDash.tryBody, hct, hrate, hval, hins, hmiss, hl, insertSignup]
        | some l =>
          cases he : env.emailError with
          | none =>
            simp [RefDash.serve, RefDash.tryBody, hct, hrate, hval, hins, hmiss, hl, he,
              insertSignup]
          | some e =>
            by_cases hq : RefDash.isQuotaError e = true
            · simp [RefDash.serve, RefDash.tryBody, hct, hrate, hval, hins, hmiss, hl, he, hq,
                insertSignup]
            · simp [RefDash.serve, RefDash.tryBody, hct, hrate, hval, hins, hmiss, hl, he, hq,
                insertSignup]
      rw [hdb, any_email_increment, List.any_append]
      simp

/-- Witness for C4: concrete post-insert failures in the `waitlist.ts`
handler produce 503/501/502, the inserted record survives a magic-link
failure, and the `ref-dashboard.ts` handler answers 503 likewise. -/
theorem C4_post_insert_failures_witness :
    (Waitlist.serve { wEnv0 with linkResult := none }).1
        = ⟨503, some "magic_link_error", none⟩ ∧
    (Waitlist.serve { wEnv0 with
        emailError := some ⟨some 429, some "daily_quota_exceeded", none, none⟩ }).1
        = ⟨501, some "email_quota_exceeded", none⟩ ∧
    (Waitlist.serve { wEnv0 with
        emailError := some ⟨none, none, none, some "connection reset"⟩ }).1
        = ⟨502, some "email_send_failed", none⟩ ∧
    (Waitlist.serve { wEnv0 with linkResult := none }).2.1.any
        (fun r => r.email == "ada@example.com") = true ∧
    (RefDash.serve { rEnvNew with linkResult := none }).1
        = ⟨503, some "magic_link_error", none⟩ :=
  ⟨(C4_post_insert_failures.1 { wEnv0 with linkResult := none } sampleParsed
      (by decide) (by decide) (by decide) rfl (by decide)).1 rfl,
   (C4_post_insert_failures.1 { wEnv0 with
        emailError := some ⟨some 429, some "daily_quota_exceeded", none, none⟩ } sampleParsed
      (by decide) (by decide) (by decide) rfl (by decide)).2.1
      ⟨some 429, some "daily_quota_exceeded", none, none⟩ rfl rfl (by decide),
   (C4_post_insert_failures.1 { wEnv0 with
        emailError := some ⟨none, none, none, some "connection reset"⟩ } sampleParsed
      (by decide) (by decide) (by decide) rfl (by decide)).2.2.1
      ⟨none, none, none, some "connection reset"⟩ rfl rfl (by decide),
   (C4_post_insert_failures.1 { wEnv0 with linkResult := none } sampleParsed
      (by decide) (by decide) (by decide) rfl (by decide)).2.2.2,
   (C4_post_insert_failures.2 { rEnvNew with linkResult := none } sampleParsed
      (by decide) (by decide) (by decide) rfl (by decide)).1 rfl⟩

/-- C1: in the signup handler with the existence check (`ref-dashboard.ts`),
a valid signup request whose email already has a record leaves the signup
store untouched — no second record, no referral increment, no duplicate
insert — and, when the magic-link generation and the e-mail dispatch succeed,
answers the returning-user success response HTTP 200. -/
theorem C1_returning_user_idempotent (env : RefDash.Env) (b : ParsedBody)
    (hct : RefDash.contentTypeValid env.contentType = true)
    (hrate : (checkRateLimit env.rlFaults env.rl env.ip "join-waitlist" env.now).1 = true)
    (hval : RefDash.validateBody env.body = .ok b)
    (hex : (findByEmail env.db b.email).isSome = true) :
    (RefDash.serve env).2.1 = env.db ∧
    (env.linkResult.isSome = true → env.returningEmailThrow = none →
      (RefDash.serve env).1 = ⟨200, none, none⟩) := by
  rcases Option.isSome_iff_exists.mp hex with ⟨x, hx⟩
  constructor
  · cases hl : env.linkResult with
    | none => simp [RefDash.serve, RefDash.tryBody, hct, hrate, hval, hx, hl]
    | some l =>
      cases ht : env.returningEmailThrow with
      | none => simp [RefDash.serve, RefDash.tryBody, hct, hrate, hval, hx, hl, ht]
      | some t => simp [RefDash.serve, RefDash.tryBody, hct, hrate, hval, hx, hl, ht]
  · intro hl ht
    rcases Option.isSome_iff_exists.mp hl with ⟨l, hl'⟩
    simp [RefDash.serve, RefDash.tryBody, hct, hrate, hval, hx, hl', ht]

/-- Witness for C1: a repeat signup for an already-stored email answers 200
and the store is exactly what it was. -/
theorem C1_returning_user_idempotent_witness :
    (RefDash.serve rEnv0).2.1 = [adaRec, bobRec] ∧
    (RefDash.serve rEnv0).1 = ⟨200, none, none⟩ :=
  ⟨(C1_returning_user_idempotent rEnv0 sampleParsed
      (by decide) (by decide) (by decide) (by decide)).1,
   (C1_returning_user_idempotent rEnv0 sampleParsed
      (by decide) (by decide) (by decide) (by decide)).2 rfl rfl⟩

/-- C9: on the returning-user path of `ref-dashboard.ts`, a magic-link
generation failure or an e-mail dispatch failure is not mapped to the
503/501/502 post-signup outcomes: the link failure throws a plain message
that the generic handler answers with 500, a dispatch failure is handed
unchanged to the generic error handler, and that handler returns 500 for any
`Error` whose message is none of the validator or business sentinel
messages. -/
theorem C9_returning_path_failures (env : RefDash.Env) (b : ParsedBody)
    (hct : RefDash.contentTypeValid env.contentType = true)
    (hrate : (checkRateLimit env.rlFaults env.rl env.ip "join-waitlist" env.now).1 = true)
    (hval : RefDash.validateBody env.body = .ok b)
    (hex : (findByEmail env.db b.email).isSome = true) :
    (env.linkResult = none →
       (RefDash.serve env).1 = ⟨500, some "internal_server_error", none⟩) ∧
    (∀ t, env.linkResult.isSome = true → env.returningEmailThrow = some t →
       (RefDash.serve env).1 = RefDash.handleError t) ∧
    (∀ m, jsIncludes (jsToLower m) "required" = false →
       jsIncludes (jsToLower m) "too_long" = false →
       jsToLower m ≠ "invalid_content_type" →
       jsToLower m ≠ "invalid_email_format" →
       m ≠ "magic_link_error" → m ≠ "email_quota_exceeded" → m ≠ "email_send_failed" →
       RefDash.handleError (.err m) = ⟨500, some "internal_server_error", none⟩) := by
  rcases Option.isSome_iff_exists.mp hex with ⟨x, hx⟩
  refine ⟨?_, ?_, ?_⟩
  · intro hl
    have h500 : RefDash.handleError (.err "Failed to generate magic link.")
        = ⟨500, some "internal_server_error", none⟩ := by decide
    simp [RefDash.serve, RefDash.tryBody, hct, hrate, hval, hx, hl, h500]
  · intro t hl ht
    rcases Option.isSome_iff_exists.mp hl with ⟨l, hl'⟩
    simp [RefDash.serve, RefDash.tryBody, hct, hrate, hval, hx, hl', ht]
  · intro m h1 h2 h3 h4 h5 h6 h7
    simp [RefDash.handleError, Thrown.isError, Thrown.msg, h1, h2, h3, h4, h5, h6, h7]

/-- Witness for C9: a concrete link failure and a concrete provider throw on
the returning path both come out as 500, not 503/501/502. -/
theorem C9_returning_path_failures_witness :
    (RefDash.serve { rEnv0 with linkResult := none }).1
        = ⟨500, some "internal_server_error", none⟩ ∧
    (RefDash.serve { rEnv0 with returningEmailThrow := some (.err "connection reset") }).1
        = RefDash.handleError (.err "connection reset") ∧
    RefDash.handleError (.err "connection reset")
        = ⟨500, some "internal_server_error", none⟩ :=
  ⟨(C9_returning_path_failures { rEnv0 with linkResult := none } sampleParsed
      (by decide) (by decide) (by decide) (by decide)).1 rfl,
   (C9_returning_path_failures
      { rEnv0 with returningEmailThrow := some (.err "connection reset") } sampleParsed
      (by decide) (by decide) (by decide) (by decide)).2.1 (.err "connection reset") rfl rfl,
   (C9_returning_path_failures rEnv0 sampleParsed
      (by decide) (by decide) (by decide) (by decide)).2.2 "connection reset"
      (by decide) (by decide) (by decide) (by decide) (by decide) (by decide) (by decide)⟩

theorem updateCount_eq_map_bump (c : String) (r : SignupRecord) :
    ∀ (db : List SignupRecord), (∀ x ∈ db, x.referral_code = c → x = r) →
      updateCountByCode db c (r.referral_count.getD 0 + 1) = db.map (bumpIf c)
  | [], _ => rfl
  | x :: xs, huniq => by
    have hx : x.referral_code = c → x = r := huniq x (List.mem_cons_self _ _)
    have ih := updateCount_eq_map_bump c r xs
      (fun y hy hc => huniq y (List.mem_cons_of_mem _ hy) hc)
    by_cases h : (x.referral_code == c) = true
    · have hxr : x = r := hx (by exact_mod_cast (beq_iff_eq (a := x.referral_code)).mp h)
      subst hxr
      simp only [updateCountByCode, List.map_cons, bumpIf, h, if_true, ite_true] at ih ⊢
      rw [ih]
    · simp only [updateCountByCode, List.map_cons, bumpIf, h, if_false, ite_false] at ih ⊢
      rw [ih]
      simp

/-- C2: a successful new signup supplying a ref code held by some record
increments exactly that record's `referral_count` by 1 (pointwise `bumpIf` on
the store, given referral-code uniqueness); a ref code matching no record
leaves the store untouched; and neither a lookup nor an update failure — nor
a missing referrer — changes the signup's success outcome (HTTP 201), in
either signup handler. -/
theorem C2_referral_increment :
    (∀ (db : List SignupRecord) (c : String) (r : SignupRecord),
        c ≠ "" →
        findByCode db c = some r →
        (∀ x ∈ db, x.referral_code = c → x = r) →
        handleReferralIncrement false false db (some c) = db.map (bumpIf c)) ∧
    (∀ (s u : Bool) (db : List SignupRecord) (c : String),
        findByCode db c = none →
        handleReferralIncrement s u db (some c) = db) ∧
    (∀ (env : Waitlist.Env) (b : ParsedBody),
        Waitlist.contentTypeValid env.contentType = true →
        (checkRateLimit env.rlFaults env.rl env.ip "join-waitlist" env.now).1 = true →
        Waitlist.validateWaitlistBody env.body = .ok b →
        env.insertFault = none →
        findByEmail env.db b.email = none →
        env.linkResult.isSome = true →
        env.emailError = none →
        (Waitlist.serve env).1 = ⟨201, none, none⟩) ∧
    (∀ (env : RefDash.Env) (b : ParsedBody),
        RefDash.contentTypeValid env.contentType = true →
        (checkRateLimit env.rlFaults env.rl env.ip "join-waitlist" env.now).1 = true →
        RefDash.validateBody env.body = .ok b →
        env.insertFault = none →
        findByEmail env.db b.email = none →
        env.linkResult.isSome = true →
        env.emailError = none →
        (RefDash.serve env).1 = ⟨201, none, none⟩) := by
  refine ⟨?_, ?_, ?_, ?_⟩
  · intro db c r hc hfind huniq
    have hcb : (c == "") = false := beq_eq_false_iff_ne.mpr hc
    simp only [handleReferralIncrement, hcb, if_false, ite_false, Bool.false_eq_true, hfind]
    exact updateCount_eq_map_bump c r db huniq
  · intro s u db c hfind
    by_cases h1 : (c == "") = true
    · simp [handleReferralIncrement, h1]
    · cases s <;> simp [handleReferralIncrement, h1, hfind]
  · intro env b hct hrate hval hins hmiss hl he
    rcases Option.isSome_iff_exists.mp hl with ⟨l, hl'⟩
    simp [Waitlist.serve, Waitlist.tryBody, hct, hrate, hval, hins, hmiss, hl', he,
      insertSignup]
  · intro env b hct hrate hval hins hmiss hl he
    rcases Option.isSome_iff_exists.mp hl with ⟨l, hl'⟩
    simp [RefDash.serve, RefDash.tryBody, hct, hrate, hval, hins, hmiss, hl', he,
      insertSignup]

/-- Witness for C2: the concrete referrer's count goes from 2 to 3 and no
other row changes; a missing code is a no-op; and both handlers answer 201
even with the referrer lookup failing. -/
theorem C2_referral_increment_witness :
    handleReferralIncrement false false [bobRec, adaRec] (some "REFBOB")
        = [bobRec, adaRec].map (bumpIf "REFBOB") ∧
    handleReferralIncrement false true [bobRec, adaRec] (some "UNKNOWN") = [bobRec, adaRec] ∧
    (Waitlist.serve { wEnv0 with refSelectError := true }).1 = ⟨201, none, none⟩ ∧
    (RefDash.serve { rEnvNew with refUpdateError := true }).1 = ⟨201, none, none⟩ :=
  ⟨C2_referral_increment.1 [bobRec, adaRec] "REFBOB" bobRec (by decide) (by decide)
      (by decide),
   C2_referral_increment.2.1 false true [bobRec, adaRec] "UNKNOWN" (by decide),
   C2_referral_increment.2.2.1 { wEnv0 with refSelectError := true } sampleParsed
      (by decide) (by decide) (by decide) rfl (by decide) rfl rfl,
   C2_referral_increment.2.2.2 { rEnvNew with refUpdateError := true } sampleParsed
      (by decide) (by decide) (by decide) rfl (by decide) rfl rfl⟩

/-- C6 as stated is false for `waitlist.ts`: a dispatch error carrying
provider status 429 but no quota-specific signal is classified as the 502
`email_send_failed` outcome, not the 501 quota outcome the claim requires for
every status-429 provider error. -/
theorem C6_counterexample :
    Waitlist.isQuotaError ⟨some 429, none, none, some "Too many requests"⟩ = false ∧
    (Waitlist.serve envC6).1 = ⟨502, some "email_send_failed", none⟩ ∧
    (Waitlist.serve envC6).1.status ≠ 501 := by
  refine ⟨by decide, by decide, by decide⟩

/-- C6 (amended): the two handlers classify quota errors differently. In
`ref-dashboard.ts`, provider status 429, a message containing "quota", or
code `daily_quota_exceeded` each suffice for the 501 quota outcome. In
`waitlist.ts`, the quota outcome additionally requires status 429 AND a
quota-specific signal (name or code `daily_quota_exceeded`, or a message
containing "daily email quota"); every other dispatch failure is the 502
outcome. Each handler maps its own classifier to 501/502 accordingly. -/
theorem C6_amended_quota_classification :
    (∀ e : EmailError,
        RefDash.isQuotaError e = true ↔
          (e.status = some 429 ∨
            (∃ m, e.message = some m ∧ jsIncludes m "quota" = true) ∨
            e.code = some "daily_quota_exceeded")) ∧
    (∀ e : EmailError,
        Waitlist.isQuotaError e = true ↔
          (e.status = some 429 ∧
            (e.name = some "daily_quota_exceeded" ∨ e.code = some "daily_quota_exceeded" ∨
              (∃ m, e.message = some m ∧ jsIncludes m "daily email quota" = true)))) ∧
    (∀ (env : Waitlist.Env) (b : ParsedBody) (e : EmailError),
        Waitlist.contentTypeValid env.contentType = true →
        (checkRateLimit env.rlFaults env.rl env.ip "join-waitlist" env.now).1 = true →
        Waitlist.validateWaitlistBody env.body = .ok b →
        env.insertFault = none →
        findByEmail env.db b.email = none →
        env.linkResult.isSome = true →
        env.emailError = some e →
        (Waitlist.serve env).1.status = if Waitlist.isQuotaError e then 501 else 502) ∧
    (∀ (env : RefDash.Env) (b : ParsedBody) (e : EmailError),
        RefDash.contentTypeValid env.contentType = true →
        (checkRateLimit env.rlFaults env.rl env.ip "join-waitlist" env.now).1 = true →
        RefDash.validateBody env.body = .ok b →
        env.insertFault = none →
        findByEmail env.db b.email = none →
        env.linkResult.isSome = true →
        env.emailError = some e →
        (RefDash.serve env).1.status = if RefDash.isQuotaError e then 501 else 502) := by
  have hw501 : Waitlist.catchResp (.err "email_quota_exceeded")
      = ⟨501, some "email_quota_exceeded", none⟩ := by decide
  have hw502 : Waitlist.catchResp (.err "email_send_failed")
      = ⟨502, some "email_send_failed", none⟩ := by decide
  have hr501 : RefDash.handleError (.err "email_quota_exceeded")
      = ⟨501, some "email_quota_exceeded", none⟩ := by decide
  have hr502 : RefDash.handleError (.err "email_send_failed")
      = ⟨502, some "email_send_failed", none⟩ := by decide
  refine ⟨?_, ?_, ?_, ?_⟩
  · intro e
    cases hm : e.message with
    | none => simp [RefDash.isQuotaError, hm]
    | some m => simp [RefDash.isQuotaError, hm, or_assoc]
  · intro e
    cases hm : e.message with
    | none => simp [Waitlist.isQuotaError, hm]
    | some m => simp [Waitlist.isQuotaError, hm, or_assoc]
  · intro env b e hct hrate hval hins hmiss hl he
    rcases Option.isSome_iff_exists.mp hl with ⟨l, hl'⟩
    by_cases hq : Waitlist.isQuotaError e = true
    · simp [Waitlist.serve, Waitlist.tryBody, hct, hrate, hval, hins, hmiss, hl', he, hq,
        insertSignup, hw501]
    · simp [Waitlist.serve, Waitlist.tryBody, hct, hrate, hval, hins, hmiss, hl', he, hq,
        insertSignup, hw502]
  · intro env b e hct hrate hval hins hmiss hl he
    rcases Option.isSome_iff_exists.mp hl with ⟨l, hl'⟩
    by_cases hq : RefDash.isQuotaError e = true
    · simp [RefDash.serve, RefDash.tryBody, hct, hrate, hval, hins, hmiss, hl', he, hq,
        insertSignup, hr501]
    · simp [RefDash.serve, RefDash.tryBody, hct, hrate, hval, hins, hmiss, hl', he, hq,
        insertSignup, hr502]

/-- Witness for the amended C6: the same status-429, no-signal provider error
is 502 under `waitlist.ts` and 501 under `ref-dashboard.ts`. -/
theorem C6_amended_quota_classification_witness :
    ((Waitlist.serve envC6).1.status
        = if Waitlist.isQuotaError ⟨some 429, none, none, some "Too many requests"⟩
          then 501 else 502) ∧
    ((RefDash.serve { rEnvNew with
          emailError := some ⟨some 429, none, none, some "Too many requests"⟩ }).1.status
        = if RefDash.isQuotaError ⟨some 429, none, none, some "Too many requests"⟩
          then 501 else 502) :=
  ⟨C6_amended_quota_classification.2.2.1 envC6 sampleParsed
      ⟨some 429, none, none, some "Too many requests"⟩
      (by decide) (by decide) (by decide) rfl (by decide) rfl rfl,
   C6_amended_quota_classification.2.2.2
      { rEnvNew with emailError := some ⟨some 429, none, none, some "Too many requests"⟩ }
      sampleParsed ⟨some 429, none, none, some "Too many requests"⟩
      (by decide) (by decide) (by decide) rfl (by decide) rfl rfl⟩

theorem waitlist_email_required_of (b : RawBody)
    (h1 : Waitlist.coerceReq b.full_name ≠ "")
    (h2 : Waitlist.coerceReq b.email = "") :
    Waitlist.validateWaitlistBody (.obj b) = .error "Email field is required." := by
  have hb1 : (Waitlist.coerceReq b.full_name == "") = false := beq_eq_false_iff_ne.mpr h1
  have hb2 : (Waitlist.coerceReq b.email == "") = true := beq_iff_eq.mpr h2
  simp [Waitlist.validateWaitlistBody, Waitlist.fieldValues, hb1, hb2]

theorem refdash_email_required_of (b : RawBody) (fn : String) (em? bn? rf? : Option String)
    (hfn : RefDash.optChainTrim b.full_name = .ok (some fn)) (h1 : fn ≠ "")
    (hem : RefDash.optChainTrim b.email = .ok em?) (h2 : em?.getD "" = "")
    (hbn : RefDash.optChainTrim b.brand_name = .ok bn?)
    (hrf : RefDash.optChainTrim b.ref = .ok rf?) :
    RefDash.validateBody (.obj b) = .error (.err "email_required") := by
  have hb1 : (fn == "") = false := beq_eq_false_iff_ne.mpr h1
  have hb2 : (em?.getD "" == "") = true := beq_iff_eq.mpr h2
  simp [RefDash.validateBody, hfn, hem, hbn, hrf, hb1, hb2]

/-- C8 as stated is false: an input whose trimmed email is empty does not
always produce the email-required error — when the trimmed full_name is also
empty, both validators report the full_name-required error instead, because
the required-field check on full_name runs first. -/
theorem C8_counterexample :
    Waitlist.validateWaitlistBody c8raw = .error "Full_name field is required." ∧
    Waitlist.validateWaitlistBody c8raw ≠ .error "Email field is required." ∧
    RefDash.validateBody c8raw = .error (.err "full_name_required") ∧
    RefDash.validateBody c8raw ≠ .error (.err "email_required") := by
  refine ⟨by decide, by decide, by decide, by decide⟩

/-- C8 (amended): the validators check in the order non-object, trim,
full_name-required, email-required, full_name-length, email-length,
email-format. Hence for every input whose trimmed full_name is nonempty and
whose trimmed email is empty the outcome is the email-required error (mapped
to HTTP 400), never `invalid_email_format`; and for every input passing the
required and full_name-length checks whose email exceeds the maximum length
the outcome is the email-too-long error (mapped to 400) even when the email
also fails the format check. -/
theorem C8_amended_validation_order :
    (∀ (b : RawBody),
        Waitlist.coerceReq b.full_name ≠ "" →
        Waitlist.coerceReq b.email = "" →
        Waitlist.validateWaitlistBody (.obj b) = .error "Email field is required.") ∧
    (Waitlist.catchResp (.err "Email field is required.")
        = ⟨400, some "invalid_request_body", none⟩) ∧
    (∀ (b : RawBody),
        Waitlist.coerceReq b.full_name ≠ "" →
        (Waitlist.coerceReq b.full_name).length ≤ 35 →
        Waitlist.coerceReq b.email ≠ "" →
        50 < (Waitlist.coerceReq b.email).length →
        Waitlist.validateWaitlistBody (.obj b) = .error "Email exceeds 50 chars.") ∧
    (Waitlist.catchResp (.err "Email exceeds 50 chars.")
        = ⟨400, some "invalid_request_body", none⟩) ∧
    (∀ (b : RawBody) (fn : String) (em? bn? rf? : Option String),
        RefDash.optChainTrim b.full_name = .ok (some fn) → fn ≠ "" →
        RefDash.optChainTrim b.email = .ok em? → em?.getD "" = "" →
        RefDash.optChainTrim b.brand_name = .ok bn? →
        RefDash.optChainTrim b.ref = .ok rf? →
        RefDash.validateBody (.obj b) = .error (.err "email_required")) ∧
    (RefDash.handleError (.err "email_required")
        = ⟨400, some "missing_field", some "email"⟩) ∧
    (∀ (b : RawBody) (fn em : String) (bn? rf? : Option String),
        RefDash.optChainTrim b.full_name = .ok (some fn) → fn ≠ "" → fn.length ≤ 50 →
        RefDash.optChainTrim b.email = .ok (some em) → em ≠ "" → 200 < em.length →
        RefDash.optChainTrim b.brand_name = .ok bn? →
        RefDash.optChainTrim b.ref = .ok rf? →
        RefDash.validateBody (.obj b) = .error (.err "email_too_long")) ∧
    (RefDash.handleError (.err "email_too_long")
        = ⟨400, some "field_too_long", some "email"⟩) := by
  refine ⟨waitlist_email_required_of, by decide, ?_, by decide,
    refdash_email_required_of, by decide, ?_, by decide⟩
  · intro b h1 h2 h3 h4
    have hb1 : (Waitlist.coerceReq b.full_name == "") = false := beq_eq_false_iff_ne.mpr h1
    have hb2 : (Waitlist.coerceReq b.email == "") = false := beq_eq_false_iff_ne.mpr h3
    have hl1 : ¬(35 < (Waitlist.coerceReq b.full_name).length) := Nat.not_lt.mpr h2
    simp [Waitlist.validateWaitlistBody, Waitlist.fieldValues, hb1, hb2, hl1, h4]
  · intro b fn em bn? rf? hfn h1 h2 hem h3 h4 hbn hrf
    have hb1 : (fn == "") = false := beq_eq_false_iff_ne.mpr h1
    have hb2 : (em == "") = false := beq_eq_false_iff_ne.mpr h3
    have hl1 : ¬(50 < fn.length) := Nat.not_lt.mpr h2
    simp [RefDash.validateBody, hfn, hem, hbn, hrf, hb1, hb2, hl1, h4]

set_option maxRecDepth 16384 in
/-- Witness for the amended C8: a whitespace email gives email-required, a
60-character email gives the too-long error in `waitlist.ts`, an absent email
gives email-required and a 201-character email gives the too-long error in
`ref-dashboard.ts`. -/
theorem C8_amended_validation_order_witness :
    Waitlist.validateWaitlistBody (.obj ⟨.str "Ada", .str "  ", .undef, .undef⟩)
        = .error "Email field is required." ∧
    Waitlist.validateWaitlistBody
        (.obj ⟨.str "Ada", .str (String.mk (List.replicate 60 'a')), .undef, .undef⟩)
        = .error "Email exceeds 50 chars." ∧
    RefDash.validateBody (.obj ⟨.str "Ada", .undef, .undef, .undef⟩)
        = .error (.err "email_required") ∧
    RefDash.validateBody
        (.obj ⟨.str "Ada", .str (String.mk (List.replicate 201 'a')), .undef, .undef⟩)
        = .error (.err "email_too_long") :=
  ⟨C8_amended_validation_order.1 ⟨.str "Ada", .str "  ", .undef, .undef⟩
      (by decide) (by decide),
   C8_amended_validation_order.2.2.1
      ⟨.str "Ada", .str (String.mk (List.replicate 60 'a')), .undef, .undef⟩
      (by decide) (by decide) (by decide) (by decide),
   C8_amended_validation_order.2.2.2.2.1 ⟨.str "Ada", .undef, .undef, .undef⟩
      "Ada" none none none (by decide) (by decide) rfl rfl rfl rfl,
   C8_amended_validation_order.2.2.2.2.2.2.1
      ⟨.str "Ada", .str (String.mk (List.replicate 201 'a')), .undef, .undef⟩
      "Ada" (String.mk (List.replicate 201 'a')) none none
      (by decide) (by decide) (by decide) (by decide) (by decide) (by decide) rfl rfl⟩

/-- C10 as stated is false for `ref-dashboard.ts`: a body whose email field
holds a number does not fail validation with the email-required outcome —
the optional-chained `.trim()` call raises a `TypeError` which escapes to the
generic handler and is answered 500. -/
theorem C10_counterexample :
    RefDash.validateBody c10raw = .error (.typeErr "raw field trim is not a function") ∧
    RefDash.validateBody c10raw ≠ .error (.err "email_required") ∧
    (RefDash.handleError (.typeErr "raw field trim is not a function")).status = 500 := by
  refine ⟨by decide, by decide, by decide⟩

/-- C10 (amended): in `waitlist.ts` a present non-string email is coerced to
the empty string by the `typeof` guard and validation fails with the
email-required outcome (HTTP 400), with no type error; in `ref-dashboard.ts`
a present email that is neither a string nor null/undefined raises a
`TypeError` during field normalization which escapes to the generic handler
as HTTP 500. -/
theorem C10_amended_nonstring_email :
    (∀ (b : RawBody),
        (∀ s, b.email ≠ .str s) →
        Waitlist.coerceReq b.full_name ≠ "" →
        Waitlist.validateWaitlistBody (.obj b) = .error "Email field is required.") ∧
    ((Waitlist.catchResp (.err "Email field is required.")).status = 400) ∧
    (∀ (b : RawBody) (fn? : Option String),
        RefDash.optChainTrim b.full_name = .ok fn? →
        ((∃ n, b.email = .num n) ∨ (∃ x, b.email = .boolv x) ∨ b.email = .objv) →
        RefDash.validateBody (.obj b)
          = .error (.typeErr "raw field trim is not a function")) ∧
    ((RefDash.handleError (.typeErr "raw field trim is not a function")).status = 500) := by
  refine ⟨?_, by decide, ?_, by decide⟩
  · intro b h h1
    have hem : Waitlist.coerceReq b.email = "" := by
      cases hbe : b.email with
      | str s => exact absurd hbe (h s)
      | num n => simp [Waitlist.coerceReq]
      | boolv x => simp [Waitlist.coerceReq]
      | nul => simp [Waitlist.coerceReq]
      | undef => simp [Waitlist.coerceReq]
      | objv => simp [Waitlist.coerceReq]
    exact waitlist_email_required_of b h1 hem
  · intro b fn? hfn hcase
    have hem : RefDash.optChainTrim b.email
        = .error (.typeErr "raw field trim is not a function") := by
      rcases hcase with ⟨n, hn⟩ | ⟨x, hx⟩ | ho
      · rw [hn]; rfl
      · rw [hx]; rfl
      · rw [ho]; rfl
    simp [RefDash.validateBody, hfn, hem]

/-- Witness for the amended C10: a numeric email is email-required (400) in
`waitlist.ts` and a `TypeError` answered 500 in `ref-dashboard.ts`. -/
theorem C10_amended_nonstring_email_witness :
    Waitlist.validateWaitlistBody c10raw = .error "Email field is required." ∧
    RefDash.validateBody c10raw = .error (.typeErr "raw field trim is not a function") :=
  ⟨C10_amended_nonstring_email.1 ⟨.str "Ada Lovelace", .num 5, .undef, .undef⟩
      (fun s h => by cases h) (by decide),
   C10_amended_nonstring_email.2.2.1 ⟨.str "Ada Lovelace", .num 5, .undef, .undef⟩
      (some "Ada Lovelace") (by decide) (Or.inl ⟨5, rfl⟩)⟩
